import Mathlib

/-!
# Unit-Aware Chemical Calculator — verification development

Shallow embedding of `src/chemical_calculator.py`. Python floats are
modelled as exact rationals (ℚ); every concrete value appearing in a
theorem below renders identically under IEEE-754 double arithmetic and
this exact model. Python string interpolation of numbers is modelled by
`pyStr` (the `str(float)` shortest-decimal form, for decimal-exact
rationals) and `ratToFixed` (the fixed-point `%.Nf` form, rounding to
nearest; no tie occurs at any value used below). HTTP traffic is
modelled by an abstract transport `net : String → HttpResult` mapping a
URL to an outcome; `try/except` blocks become `Option`-valued pipelines
whose `none` is the `except` branch.
-/

namespace ChemCalc

/-- Pad a numeral string on the left with zeros up to width `d`. -/
def padZeros (d : ℕ) (s : String) : String :=
  String.mk (List.replicate (d - s.length) '0') ++ s

/-- Round to the nearest integer, halves up: models the rounding of a
`%.Nf` format (round-to-nearest). -/
def roundQ (x : ℚ) : ℤ :=
  ⌊x + 1 / 2⌋

/-- Fixed-point rendering of `x` with exactly `d` decimal digits (the
Python format spec `.df`), keeping the sign of the mathematical value as
Python keeps the sign of the float. -/
def ratToFixed (d : ℕ) (x : ℚ) : String :=
  (if x < 0 then "-" else "") ++
    toString ((roundQ (x * 10 ^ d)).natAbs / 10 ^ d) ++ "." ++
    padZeros d (toString ((roundQ (x * 10 ^ d)).natAbs % 10 ^ d))

/-- Least decimal length search: the first `d` (counting up from the
current index, with the given fuel) making `x * 10 ^ d` integral. -/
def decLenFrom (x : ℚ) : ℕ → ℕ → ℕ
  | 0, d => d
  | fuel + 1, d => if (x * 10 ^ d).den = 1 then d else decLenFrom x fuel (d + 1)

/-- The number of decimal digits `str(float)` prints for a decimal-exact
value: the least `d` with `x * 10 ^ d` integral (capped at 17, the
maximal significand length of a double). -/
def decLen (x : ℚ) : ℕ :=
  decLenFrom x 17 0

/-- Python `str(float)` (equivalently an f-string interpolation of a
float) for decimal-exact rationals: integers get a trailing `.0`,
fractions print their minimal decimal expansion. -/
def pyStr (x : ℚ) : String :=
  let d := decLen x
  if d = 0 then toString x.num ++ ".0" else ratToFixed d x

/-- `get_multiplier` (src line 16): the unit-symbol → scale-factor
dictionary; `none` models the `KeyError` a missing key raises. -/
def get_multiplier (unit : String) : Option ℚ :=
  match unit with
  | "L" => some 1
  | "mL" => some 1e-3
  | "µL" => some 1e-6
  | "M" => some 1
  | "mM" => some 1e-3
  | "µM" => some 1e-6
  | "nM" => some 1e-9
  | "g" => some 1
  | "mg" => some 1e-3
  | "µg" => some 1e-6
  | "ng" => some 1e-9
  | _ => none

/-- The mass unit list of `format_mass` (src line 32). -/
def units : List String := ["g", "mg", "µg", "ng"]

/-- The factor list of `format_mass` (src line 33). -/
def factors : List ℚ := [1, 1e-3, 1e-6, 1e-9]

/-- The `for unit, factor in zip(units, factors)` loop of `format_mass`:
return on the first factor with the value ≥ factor, else fall through to
the ng fallback after the loop. -/
def format_mass_loop (value_in_g : ℚ) : List (String × ℚ) → String
  | [] => ratToFixed 4 (value_in_g / 1e-9) ++ " ng"
  | (unit, factor) :: rest =>
    if value_in_g ≥ factor then ratToFixed 4 (value_in_g / factor) ++ " " ++ unit
    else format_mass_loop value_in_g rest

/-- `format_mass` (src lines 31–37). -/
def format_mass (value_in_g : ℚ) : String :=
  format_mass_loop value_in_g (units.zip factors)

/-- Spec §4.2 restated from its words: select the first unit in the
ordered list whose factor is ≤ grams; output value/factor to 4 decimals
with the unit symbol; fall back to ng. Used only to compare against
`format_mass`. -/
def formatMassSpec (grams : ℚ) : String :=
  match (units.zip factors).find? (fun p => decide (p.2 ≤ grams)) with
  | some (unit, factor) => ratToFixed 4 (grams / factor) ++ " " ++ unit
  | none => ratToFixed 4 (grams / 1e-9) ++ " ng"

/-- The single-quote character, used by the Python `KeyError` message. -/
def sq : String := (Char.ofNat 39).toString

/-- What `f"Error: e"`-style interpolation prints for the `KeyError`
raised by a failed dictionary lookup of key `k`: the key in single
quotes. -/
def keyErrorMsg (k : String) : String := sq ++ k ++ sq

/-- The volume unit selectbox choices (src line 109 and line 159). -/
def volume_unit_choices : List String := ["L", "mL", "µL"]

/-- The concentration unit selectbox choices (src line 115). -/
def concentration_unit_choices : List String := ["M", "mM", "µM", "nM"]

/-- The mass unit selectbox choices (src line 153). -/
def mass_unit_choices : List String := ["g", "mg", "µg", "ng"]

/-- The Calculate Required Mass handler (src lines 117–126): returns the
stored mass result string and, when the computation succeeded, the
breakdown string (on exception the breakdown is left unset, modelled by
`none`). The volume unit is looked up before the concentration unit,
matching the statement order inside the `try`. -/
def calcRequiredMass (mw volume concentration : ℚ)
    (volume_unit concentration_unit : String) : String × Option String :=
  match get_multiplier volume_unit with
  | none => ("Error: " ++ keyErrorMsg volume_unit, none)
  | some mv =>
    match get_multiplier concentration_unit with
    | none => ("Error: " ++ keyErrorMsg concentration_unit, none)
    | some mc =>
      let vol_L := volume * mv
      let conc_M := concentration * mc
      let mass_g := mw * conc_M * vol_L
      let breakdown := pyStr concentration ++ " " ++ concentration_unit ++ " * " ++
        pyStr volume ++ " " ++ volume_unit ++ " * " ++ pyStr mw ++ " g/mol"
      ("Mass required: " ++ format_mass mass_g, some breakdown)

/-- The Convert to g/L handler (src lines 130–136). -/
def convertToGL (mw concentration : ℚ) (concentration_unit : String) : String :=
  match get_multiplier concentration_unit with
  | none => "Error: " ++ keyErrorMsg concentration_unit
  | some mc =>
    let conc_M := concentration * mc
    let gl := mw * conc_M
    "Equivalent concentration: " ++ ratToFixed 4 gl ++ " g/L"

/-- The Calculate Molarity handler (src lines 161–168). Python float
division raises `ZeroDivisionError` on a zero divisor (message shown by
the `except` as a labeled error), so the two divisions are guarded, in
evaluation order, by zero tests on the molecular weight and the volume
in liters. -/
def calcMolarity (mw mass_input volume2 : ℚ)
    (mass_unit volume_unit2 : String) : String :=
  match get_multiplier volume_unit2 with
  | none => "Error: " ++ keyErrorMsg volume_unit2
  | some mv =>
    match get_multiplier mass_unit with
    | none => "Error: " ++ keyErrorMsg mass_unit
    | some mm =>
      let vol_L := volume2 * mv
      let mass_g := mass_input * mm
      if mw = 0 then "Error: float division by zero"
      else if vol_L = 0 then "Error: float division by zero"
      else "Molarity: " ++ ratToFixed 6 (mass_g / mw / vol_L) ++ " mol/L"

/-- A JSON value: the decoded body of an API response. Numbers are
exact rationals (JSON integers have denominator 1). -/
inductive Json where
  | null : Json
  | bool : Bool → Json
  | num : ℚ → Json
  | str : String → Json
  | arr : List Json → Json
  | obj : List (String × Json) → Json

/-- Python truthiness of a decoded JSON value, as tested by
`if mw_result:` (src line 80). -/
def truthy : Json → Bool
  | .null => false
  | .bool b => b
  | .num q => decide (q ≠ 0)
  | .str s => decide (s ≠ "")
  | .arr xs => !xs.isEmpty
  | .obj fs => !fs.isEmpty

/-- Subscripting a JSON object by key; `none` models the `KeyError` (or
`TypeError` on a non-object) the Python subscript raises, which the
enclosing bare `except` absorbs. -/
def Json.get? (j : Json) (k : String) : Option Json :=
  match j with
  | .obj fs => (fs.find? fun p => p.1 == k).map (·.2)
  | _ => none

/-- Subscripting a JSON array by position; `none` models the
`IndexError` (or `KeyError`/`TypeError` on a non-array) the Python
subscript raises. -/
def Json.idx? (j : Json) (i : ℕ) : Option Json :=
  match j with
  | .arr xs => xs.get? i
  | _ => none

/-- Python `float(x)` applied to a decoded JSON value: numbers pass
through, booleans coerce, anything else (including non-numeric strings)
raises, modelled by `none`. Numeric strings are outside what the claims
exercise and are modelled as failing. -/
def Json.float? : Json → Option ℚ
  | .num q => some q
  | .bool b => some (if b then 1 else 0)
  | _ => none

/-- One outcome of `requests.get(url)`: a transport-level exception, or
an HTTP response carrying a status code and a decoded JSON body (`none`
body models a body `.json()` fails to parse). -/
inductive HttpResult where
  | transportError : HttpResult
  | response : ℕ → Option Json → HttpResult

/-- The composite of `requests.get`, `raise_for_status` and `.json()`:
yields the decoded body only for a delivered response whose status is
below 400 and whose body parses. -/
def httpJson : HttpResult → Option Json
  | .transportError => none
  | .response status body => if 400 ≤ status then none else body

/-- The PubChem CID-by-name URL (src line 42). -/
def cidUrl (name : String) : String :=
  "https://pubchem.ncbi.nlm.nih.gov/rest/pug/compound/name/" ++ name ++ "/cids/JSON"

/-- Interpolation of a decoded JSON value into an f-string (src line
49): integers print bare, other numbers as floats. -/
def jsonArgStr : Json → String
  | .null => "None"
  | .bool b => if b then "True" else "False"
  | .num q => if q.den = 1 then toString q.num else pyStr q
  | .str s => s
  | .arr _ => "[...]"
  | .obj _ => "{...}"

/-- The PubChem property-by-CID URL (src line 49). -/
def mwUrl (cid : Json) : String :=
  "https://pubchem.ncbi.nlm.nih.gov/rest/pug/compound/cid/" ++ jsonArgStr cid ++
    "/property/MolecularWeight/JSON"

/-- The body of the `try` in `fetch_molecular_weight` (src lines 40–54):
the two-step PubChem exchange, each subscript and the float coercion
failing softly into the surrounding `except`. -/
def fetchMolecularWeightAux (net : String → HttpResult) (name : String) :
    Option (ℚ × Json) := do
  let cid_data ← httpJson (net (cidUrl name))
  let il ← cid_data.get? "IdentifierList"
  let cids ← il.get? "CID"
  let cid ← cids.idx? 0
  let mw_data ← httpJson (net (mwUrl cid))
  let pt ← mw_data.get? "PropertyTable"
  let props ← pt.get? "Properties"
  let p0 ← props.idx? 0
  let mwj ← p0.get? "MolecularWeight"
  let mw ← mwj.float?
  pure (mw, cid)

/-- `fetch_molecular_weight` (src lines 39–56): the compound resolver
strategy; any failure inside the `try` collapses to `(None, None)`. -/
def fetch_molecular_weight (net : String → HttpResult) (name : String) :
    Option ℚ × Option Json :=
  match fetchMolecularWeightAux net name with
  | some (mw, cid) => (some mw, some cid)
  | none => (none, none)

/-- The UniProt search URL (src line 60). -/
def uniprotUrl (name : String) : String :=
  "https://rest.uniprot.org/uniprotkb/search?query=" ++ name ++
    "&fields=accession,mass,protein_name&format=json&size=1"

/-- The body of the `try` in `fetch_uniprot_mw` (src lines 59–68). Note
that the source also dereferences the chain proteinDescription →
recommendedName → fullName → value into a variable it never uses (src
line 65); the dereference can still raise, so it participates in the
success condition. -/
def fetchUniprotMwAux (net : String → HttpResult) (name : String) :
    Option (Json × Json) := do
  let data ← httpJson (net (uniprotUrl name))
  let results ← data.get? "results"
  let entry ← results.idx? 0
  let pd ← entry.get? "proteinDescription"
  let rn ← pd.get? "recommendedName"
  let fn ← rn.get? "fullName"
  let _mass ← fn.get? "value"
  let seq ← entry.get? "sequence"
  let mw ← seq.get? "mass"
  let accession ← entry.get? "primaryAccession"
  pure (mw, accession)

/-- `fetch_uniprot_mw` (src lines 58–70): the protein resolver strategy;
any failure inside the `try` collapses to `(None, None)`. -/
def fetch_uniprot_mw (net : String → HttpResult) (name : String) :
    Option Json × Option Json :=
  match fetchUniprotMwAux net name with
  | some (mw, acc) => (some mw, some acc)
  | none => (none, none)

/-- Python `mw_result / 1000` applied to a decoded JSON value (src line
81): numbers divide, booleans coerce and divide, and any other operand
raises a `TypeError`, modelled by `none`. The lookup handler runs
outside any `try`, so that `TypeError` is uncaught. -/
def mw_kDa? : Json → Option ℚ
  | .num q => some (q / 1000)
  | .bool b => some ((if b then 1 else 0) / 1000)
  | _ => none

/-- The Lookup Molecular Weight handler (src lines 77–94), restricted to
its effect on the stored molecular weight
`st.session_state.molecular_weight`: the fetched weight overwrites the
state only when the branch guard `if mw_result:` (Python truthiness,
src line 80) passes and the kilo-Dalton display division
`mw_kDa = mw_result / 1000` (src line 81) succeeds — a truthy
non-numeric weight raises an uncaught `TypeError` there, aborting the
script run before the assignment at src line 83, so the state is left
unchanged; on a falsy or not-found result an error message is shown and
the state is also left unchanged. For the compound strategy the fetched
value is a float (truthy iff nonzero, and its branch performs no
division). -/
def lookupHandler (net : String → HttpResult) (search_as_protein : Bool)
    (name : String) (cur : Json) : Json :=
  if search_as_protein then
    match fetch_uniprot_mw net name with
    | (some mw_result, _) =>
      if truthy mw_result then
        match mw_kDa? mw_result with
        | some _ => mw_result
        | none => cur
      else cur
    | (none, _) => cur
  else
    match fetch_molecular_weight net name with
    | (some mw_result, _) => if mw_result ≠ 0 then Json.num mw_result else cur
    | (none, _) => cur

/-! ## Evaluation lemmas

Rational arithmetic does not reduce definitionally, so concrete outputs
are obtained by first settling the rational-valued parts with `norm_num`
through these lemmas and then reducing the residual natural-number and
string computation with `rfl`. -/

lemma ratToFixed_nonneg (d : ℕ) (x : ℚ) (n : ℤ) (h : roundQ (x * 10 ^ d) = n)
    (hx : ¬ x < 0) :
    ratToFixed d x =
      toString (n.natAbs / 10 ^ d) ++ "." ++ padZeros d (toString (n.natAbs % 10 ^ d)) := by
  simp [ratToFixed, h, hx]

lemma ratToFixed_neg (d : ℕ) (x : ℚ) (n : ℤ) (h : roundQ (x * 10 ^ d) = n)
    (hx : x < 0) :
    ratToFixed d x =
      "-" ++ toString (n.natAbs / 10 ^ d) ++ "." ++ padZeros d (toString (n.natAbs % 10 ^ d)) := by
  simp [ratToFixed, h, hx]

lemma format_mass_def (x : ℚ) :
    format_mass x = format_mass_loop x [("g", 1), ("mg", 1e-3), ("µg", 1e-6), ("ng", 1e-9)] := rfl

lemma format_mass_loop_cons (x : ℚ) (u : String) (f : ℚ) (rest : List (String × ℚ)) :
    format_mass_loop x ((u, f) :: rest) =
      if x ≥ f then ratToFixed 4 (x / f) ++ " " ++ u else format_mass_loop x rest := rfl

lemma format_mass_loop_nil (x : ℚ) :
    format_mass_loop x [] = ratToFixed 4 (x / 1e-9) ++ " ng" := rfl

lemma format_mass_small (x : ℚ) (h : x < 1e-9) :
    format_mass x = ratToFixed 4 (x / 1e-9) ++ " ng" := by
  have h1 : ¬ x ≥ (1:ℚ) := not_le.mpr (h.trans (by norm_num))
  have h2 : ¬ x ≥ (1e-3:ℚ) := not_le.mpr (h.trans (by norm_num))
  have h3 : ¬ x ≥ (1e-6:ℚ) := not_le.mpr (h.trans (by norm_num))
  have h4 : ¬ x ≥ (1e-9:ℚ) := not_le.mpr h
  rw [format_mass_def, format_mass_loop_cons, if_neg h1, format_mass_loop_cons, if_neg h2,
    format_mass_loop_cons, if_neg h3, format_mass_loop_cons, if_neg h4, format_mass_loop_nil]

lemma decLenFrom_stop (x : ℚ) (fuel d : ℕ) (h : (x * 10 ^ d).den = 1) :
    decLenFrom x (fuel + 1) d = d := by
  simp [decLenFrom, h]

lemma decLenFrom_step (x : ℚ) (fuel d : ℕ) (h : (x * 10 ^ d).den ≠ 1) :
    decLenFrom x (fuel + 1) d = decLenFrom x fuel (d + 1) := by
  simp [decLenFrom, h]

lemma pyStr_int (x : ℚ) (n : ℤ) (hn : x.num = n) (hd : x.den = 1) :
    pyStr x = toString n ++ ".0" := by
  have h0 : decLen x = 0 := by
    unfold decLen
    rw [decLenFrom_stop _ _ _ (by simpa using hd)]
  simp [pyStr, h0, hn]

lemma pyStr_frac (x : ℚ) (d : ℕ) (hd : decLen x = d) (h0 : d ≠ 0) :
    pyStr x = ratToFixed d x := by
  simp [pyStr, hd, h0]

lemma pyStr_one : pyStr 1 = "1.0" := by
  rw [pyStr_int 1 1 (by norm_num) (by norm_num)]
  rfl

lemma pyStr_nacl : pyStr 58.44 = "58.44" := by
  rw [pyStr_frac _ 2 ?_ (by norm_num)]
  · rw [ratToFixed_nonneg 2 _ 5844 (by norm_num [roundQ]) (by norm_num)]
    rfl
  · unfold decLen
    rw [decLenFrom_step _ _ _ (by norm_num), decLenFrom_step _ _ _ (by norm_num),
      decLenFrom_stop _ _ _ (by norm_num)]

lemma format_mass_eq_spec (v : ℚ) : format_mass v = formatMassSpec v := by
  have hz : units.zip factors = [("g", 1), ("mg", 1e-3), ("µg", 1e-6), ("ng", 1e-9)] := rfl
  unfold format_mass formatMassSpec
  rw [hz]
  by_cases h1 : (1:ℚ) ≤ v
  · simp [format_mass_loop, List.find?, h1, ge_iff_le]
  · by_cases h2 : (1e-3:ℚ) ≤ v
    · simp [format_mass_loop, List.find?, h1, h2, ge_iff_le]
    · by_cases h3 : (1e-6:ℚ) ≤ v
      · simp [format_mass_loop, List.find?, h1, h2, h3, ge_iff_le]
      · by_cases h4 : (1e-9:ℚ) ≤ v
        · simp [format_mass_loop, List.find?, h1, h2, h3, h4, ge_iff_le]
        · simp [format_mass_loop, List.find?, h1, h2, h3, h4, ge_iff_le]

/-! ## Claims -/

/-- C1: for every calculation input made of a molecular weight, a
concentration with a valid concentration unit and a volume with a valid
volume unit, the Calculate Required Mass handler computes
mw * (conc * factor) * (vol * factor), returns it through
`format_mass` prefixed by the result label, and sets the breakdown
string interpolating concentration, its unit, volume, its unit and the
molecular weight followed by g/mol. -/
theorem required_mass_correct (mw c v fc fv : ℚ) (cu vu : String)
    (hc : get_multiplier cu = some fc) (hv : get_multiplier vu = some fv) :
    calcRequiredMass mw v c vu cu =
      ("Mass required: " ++ format_mass (mw * (c * fc) * (v * fv)),
        some (pyStr c ++ " " ++ cu ++ " * " ++ pyStr v ++ " " ++ vu ++ " * " ++
          pyStr mw ++ " g/mol")) := by
  simp [calcRequiredMass, hc, hv]

/-- Witness for C1 at molecular weight 2, concentration 3 mM,
volume 4 mL. -/
theorem required_mass_correct_witness :
    calcRequiredMass 2 4 3 "mL" "mM" =
      ("Mass required: " ++ format_mass (2 * (3 * 1e-3) * (4 * 1e-3)),
        some (pyStr 3 ++ " " ++ "mM" ++ " * " ++ pyStr 4 ++ " " ++ "mL" ++ " * " ++
          pyStr 2 ++ " g/mol")) :=
  required_mass_correct 2 3 4 1e-3 1e-3 "mM" "mL" rfl rfl

/-- C2: `format_mass` agrees everywhere with the spec §4.2 algorithm
(first unit in g, mg, µg, ng whose factor is at most the gram value,
value/factor to 4 decimals, ng fallback), and takes the documented
values at 1.0, 0.5, 1e-10 and 0.0 — zero falling through to the ng
fallback because the comparison is value ≥ factor. -/
theorem format_mass_conformance :
    (∀ v : ℚ, format_mass v = formatMassSpec v) ∧
    format_mass 1 = "1.0000 g" ∧
    format_mass 0.5 = "500.0000 mg" ∧
    format_mass 1e-10 = "0.1000 ng" ∧
    format_mass 0 = "0.0000 ng" := by
  refine ⟨format_mass_eq_spec, ?_, ?_, ?_, ?_⟩
  · rw [format_mass_def, format_mass_loop_cons, if_pos (by norm_num : (1:ℚ) ≥ 1),
      ratToFixed_nonneg 4 _ 10000 (by norm_num [roundQ]) (by norm_num)]
    rfl
  · rw [format_mass_def, format_mass_loop_cons, if_neg (by norm_num), format_mass_loop_cons,
      if_pos (by norm_num : (0.5:ℚ) ≥ 1e-3),
      ratToFixed_nonneg 4 _ 5000000 (by norm_num [roundQ]) (by norm_num)]
    rfl
  · rw [format_mass_small _ (by norm_num),
      ratToFixed_nonneg 4 _ 1000 (by norm_num [roundQ]) (by norm_num)]
    rfl
  · rw [format_mass_small _ (by norm_num),
      ratToFixed_nonneg 4 _ 0 (by norm_num [roundQ]) (by norm_num)]
    rfl

/-- Witness for C2: the conformance equation applied at 2 g. -/
theorem format_mass_conformance_witness :
    format_mass 2 = formatMassSpec 2 :=
  format_mass_conformance.1 2

/-- C3: with molecular weight 58.44, concentration 1 M and volume 1 L
the Calculate Required Mass handler yields 58.44 g (with its breakdown),
and feeding mass 58.44 g with volume 1 L and the same molecular weight
into the Calculate Molarity handler recovers exactly 1 mol/L. -/
theorem required_mass_round_trip :
    calcRequiredMass 58.44 1 1 "L" "M" =
      ("Mass required: 58.4400 g", some "1.0 M * 1.0 L * 58.44 g/mol") ∧
    calcMolarity 58.44 58.44 1 "g" "L" = "Molarity: 1.000000 mol/L" := by
  constructor
  · have e1 : calcRequiredMass 58.44 1 1 "L" "M" =
        ("Mass required: " ++ format_mass (58.44 * (1 * 1) * (1 * 1)),
          some (pyStr 1 ++ " " ++ "M" ++ " * " ++ pyStr 1 ++ " " ++ "L" ++ " * " ++
            pyStr 58.44 ++ " g/mol")) := rfl
    rw [e1, pyStr_one, pyStr_nacl, show (58.44:ℚ) * (1 * 1) * (1 * 1) = 58.44 by norm_num,
      format_mass_def, format_mass_loop_cons, if_pos (by norm_num : (58.44:ℚ) ≥ 1),
      ratToFixed_nonneg 4 _ 584400 (by norm_num [roundQ]) (by norm_num)]
    rfl
  · have e2 : calcMolarity 58.44 58.44 1 "g" "L" =
        (if (58.44:ℚ) = 0 then "Error: float division by zero"
         else if (1:ℚ) * 1 = 0 then "Error: float division by zero"
         else "Molarity: " ++ ratToFixed 6 ((58.44:ℚ) * 1 / 58.44 / (1 * 1)) ++ " mol/L") := rfl
    rw [e2, if_neg (by norm_num), if_neg (by norm_num),
      show (58.44:ℚ) * 1 / 58.44 / (1 * 1) = 1 by norm_num,
      ratToFixed_nonneg 6 _ 1000000 (by norm_num [roundQ]) (by norm_num)]
    rfl

/-- C4: for every transport and every name, both resolver strategies
either return the uniform not-found pair (None, None) or a fully
populated pair — never a partial result and never an exception (both
functions are total); and each enumerated failure mode — transport
error, non-success HTTP status, malformed JSON body, missing JSON field,
empty result set — produces (None, None) in both strategies. -/
theorem resolver_failures_collapse :
    (∀ (net : String → HttpResult) (name : String),
      fetch_molecular_weight net name = (none, none) ∨
        ∃ mw cid, fetch_molecular_weight net name = (some mw, some cid)) ∧
    (∀ (net : String → HttpResult) (name : String),
      fetch_uniprot_mw net name = (none, none) ∨
        ∃ mw acc, fetch_uniprot_mw net name = (some mw, some acc)) ∧
    (∀ name, fetch_molecular_weight (fun _ => HttpResult.transportError) name = (none, none)) ∧
    (∀ name, fetch_uniprot_mw (fun _ => HttpResult.transportError) name = (none, none)) ∧
    (∀ name, fetch_molecular_weight
      (fun _ => HttpResult.response 404 (some (Json.obj []))) name = (none, none)) ∧
    (∀ name, fetch_uniprot_mw
      (fun _ => HttpResult.response 404 (some (Json.obj []))) name = (none, none)) ∧
    (∀ name, fetch_molecular_weight
      (fun _ => HttpResult.response 200 none) name = (none, none)) ∧
    (∀ name, fetch_uniprot_mw
      (fun _ => HttpResult.response 200 none) name = (none, none)) ∧
    (∀ name, fetch_molecular_weight
      (fun _ => HttpResult.response 200 (some (Json.obj []))) name = (none, none)) ∧
    (∀ name, fetch_uniprot_mw
      (fun _ => HttpResult.response 200 (some (Json.obj []))) name = (none, none)) ∧
    (∀ name, fetch_molecular_weight
      (fun _ => HttpResult.response 200
        (some (Json.obj [("IdentifierList", Json.obj [("CID", Json.arr [])])])))
      name = (none, none)) ∧
    (∀ name, fetch_uniprot_mw
      (fun _ => HttpResult.response 200 (some (Json.obj [("results", Json.arr [])])))
      name = (none, none)) := by
  refine ⟨fun net name => ?_, fun net name => ?_,
    fun _ => rfl, fun _ => rfl, fun _ => rfl, fun _ => rfl, fun _ => rfl, fun _ => rfl,
    fun _ => rfl, fun _ => rfl, fun _ => rfl, fun _ => rfl⟩
  · cases h : fetchMolecularWeightAux net name with
    | none => exact Or.inl (by simp [fetch_molecular_weight, h])
    | some p => exact Or.inr ⟨p.1, p.2, by simp [fetch_molecular_weight, h]⟩
  · cases h : fetchUniprotMwAux net name with
    | none => exact Or.inl (by simp [fetch_uniprot_mw, h])
    | some p => exact Or.inr ⟨p.1, p.2, by simp [fetch_uniprot_mw, h]⟩

/-- Witness for C4: the transport-error conjunct applied to a concrete
name. -/
theorem resolver_failures_collapse_witness :
    fetch_molecular_weight (fun _ => HttpResult.transportError) "aspirin" = (none, none) :=
  resolver_failures_collapse.2.2.1 "aspirin"

/-- C5: with valid mass and volume units, whenever the molecular weight
or the volume is zero the Calculate Molarity handler catches the
zero-division at the operation boundary and surfaces the labeled error
string instead of a molarity (the handler is total, so no input
terminates the session). -/
theorem molarity_div_by_zero (mw mass volume2 : ℚ) (mu vu : String)
    (hmu : mu ∈ mass_unit_choices) (hvu : vu ∈ volume_unit_choices)
    (h : mw = 0 ∨ volume2 = 0) :
    calcMolarity mw mass volume2 mu vu = "Error: float division by zero" := by
  obtain ⟨mv, hv⟩ : ∃ mv, get_multiplier vu = some mv := by
    fin_cases hvu <;> exact ⟨_, rfl⟩
  obtain ⟨mm, hm⟩ : ∃ mm, get_multiplier mu = some mm := by
    fin_cases hmu <;> exact ⟨_, rfl⟩
  simp only [calcMolarity, hv, hm]
  by_cases hmw : mw = 0
  · rw [if_pos hmw]
  · rcases h with h | h
    · exact absurd h hmw
    · rw [if_neg hmw, if_pos (by rw [h, zero_mul])]

/-- Witness for C5 at molecular weight 0, mass 5 g, volume 1 L. -/
theorem molarity_div_by_zero_witness :
    calcMolarity 0 5 1 "g" "L" = "Error: float division by zero" :=
  molarity_div_by_zero 0 5 1 "g" "L" (List.mem_cons_self "g" _) (List.mem_cons_self "L" _)
    (Or.inl rfl)

/-- C7: for every valid concentration unit the Convert to g/L handler
reports mw * (conc * factor) to 4 decimals with unit g/L; in particular
molecular weight 180.16 at 0.1 M yields 18.016 g/L. -/
theorem gl_conversion_correct (mw c f : ℚ) (u : String)
    (hu : get_multiplier u = some f) :
    convertToGL mw c u = "Equivalent concentration: " ++ ratToFixed 4 (mw * (c * f)) ++ " g/L" ∧
    convertToGL 180.16 0.1 "M" = "Equivalent concentration: 18.0160 g/L" := by
  constructor
  · simp [convertToGL, hu]
  · have e : convertToGL 180.16 0.1 "M" =
        "Equivalent concentration: " ++ ratToFixed 4 ((180.16:ℚ) * (0.1 * 1)) ++ " g/L" := rfl
    rw [e, show (180.16:ℚ) * (0.1 * 1) = 18.016 by norm_num,
      ratToFixed_nonneg 4 _ 180160 (by norm_num [roundQ]) (by norm_num)]
    rfl

/-- Witness for C7 at molecular weight 2, concentration 3 mM. -/
theorem gl_conversion_correct_witness :
    convertToGL 2 3 "mM" = "Equivalent concentration: " ++ ratToFixed 4 (2 * (3 * 1e-3)) ++ " g/L" ∧
    convertToGL 180.16 0.1 "M" = "Equivalent concentration: 18.0160 g/L" :=
  gl_conversion_correct 2 3 1e-3 "mM" rfl

/-- C8: the unit conversion table maps each of the eleven enumerated
unit symbols to exactly its documented constant (base units to 1,
m-prefixed to 1e-3, µ-prefixed to 1e-6, n-prefixed to 1e-9), and within
each dimension the factors are strictly decreasing with smaller
prefixes. -/
theorem scale_factor_table :
    get_multiplier "L" = some 1 ∧ get_multiplier "mL" = some 1e-3 ∧
    get_multiplier "µL" = some 1e-6 ∧
    get_multiplier "M" = some 1 ∧ get_multiplier "mM" = some 1e-3 ∧
    get_multiplier "µM" = some 1e-6 ∧ get_multiplier "nM" = some 1e-9 ∧
    get_multiplier "g" = some 1 ∧ get_multiplier "mg" = some 1e-3 ∧
    get_multiplier "µg" = some 1e-6 ∧ get_multiplier "ng" = some 1e-9 ∧
    ((get_multiplier "L").getD 0 > (get_multiplier "mL").getD 0 ∧
      (get_multiplier "mL").getD 0 > (get_multiplier "µL").getD 0) ∧
    ((get_multiplier "M").getD 0 > (get_multiplier "mM").getD 0 ∧
      (get_multiplier "mM").getD 0 > (get_multiplier "µM").getD 0 ∧
      (get_multiplier "µM").getD 0 > (get_multiplier "nM").getD 0) ∧
    ((get_multiplier "g").getD 0 > (get_multiplier "mg").getD 0 ∧
      (get_multiplier "mg").getD 0 > (get_multiplier "µg").getD 0 ∧
      (get_multiplier "µg").getD 0 > (get_multiplier "ng").getD 0) := by
  refine ⟨rfl, rfl, rfl, rfl, rfl, rfl, rfl, rfl, rfl, rfl, rfl,
    ⟨?_, ?_⟩, ⟨?_, ?_, ?_⟩, ⟨?_, ?_, ?_⟩⟩ <;>
  · simp only [show get_multiplier "L" = some (1:ℚ) from rfl,
      show get_multiplier "mL" = some (1e-3:ℚ) from rfl,
      show get_multiplier "µL" = some (1e-6:ℚ) from rfl,
      show get_multiplier "M" = some (1:ℚ) from rfl,
      show get_multiplier "mM" = some (1e-3:ℚ) from rfl,
      show get_multiplier "µM" = some (1e-6:ℚ) from rfl,
      show get_multiplier "nM" = some (1e-9:ℚ) from rfl,
      show get_multiplier "g" = some (1:ℚ) from rfl,
      show get_multiplier "mg" = some (1e-3:ℚ) from rfl,
      show get_multiplier "µg" = some (1e-6:ℚ) from rfl,
      show get_multiplier "ng" = some (1e-9:ℚ) from rfl, Option.getD_some]
    norm_num

/-- C10: `format_mass` is total on every rational input; for every
value strictly below 1e-9 — every negative value included — no loop
comparison succeeds and the result is the ng fallback, the value divided
by 1e-9 rendered to 4 decimals; a negative input yields a string
starting with a minus sign. -/
theorem format_mass_total_below_ng (x : ℚ) (h : x < 1e-9) :
    format_mass x = ratToFixed 4 (x / 1e-9) ++ " ng" ∧
    (x < 0 → ∃ s, format_mass x = "-" ++ s) := by
  refine ⟨format_mass_small x h, fun hneg => ?_⟩
  have hx : x / 1e-9 < 0 := div_neg_of_neg_of_pos hneg (by norm_num)
  refine ⟨toString ((roundQ (x / 1e-9 * 10 ^ 4)).natAbs / 10 ^ 4) ++
    ("." ++ (padZeros 4 (toString ((roundQ (x / 1e-9 * 10 ^ 4)).natAbs % 10 ^ 4)) ++ " ng")), ?_⟩
  rw [format_mass_small x h, ratToFixed_neg 4 _ _ rfl hx, String.append_assoc,
    String.append_assoc, String.append_assoc]

/-- Witness for C10 at the negative input -1. -/
theorem format_mass_total_below_ng_witness :
    format_mass (-1 : ℚ) = ratToFixed 4 ((-1) / 1e-9) ++ " ng" ∧
    (∃ s, format_mass (-1 : ℚ) = "-" ++ s) :=
  ⟨(format_mass_total_below_ng (-1) (by norm_num)).1,
    (format_mass_total_below_ng (-1) (by norm_num)).2 (by norm_num)⟩

/-- A transport whose UniProt response carries a first result with a
sequence mass and a primary accession but no proteinDescription. -/
def c6PartialNet : String → HttpResult := fun _ =>
  HttpResult.response 200 (some (Json.obj [("results", Json.arr [Json.obj
    [("sequence", Json.obj [("mass", Json.num 50000)]),
     ("primaryAccession", Json.str "P12345")]])]))

/-- Counterexample to C6: a response whose first result contains the
sequence mass and the primary accession — the two fields the claim says
success depends on — still resolves to the not-found pair, because the
source also dereferences the proteinDescription name chain of the first
result (src line 65). -/
theorem protein_two_fields_insufficient :
    fetch_uniprot_mw c6PartialNet "insulin" = (none, none) := rfl

/-- C6 (amended): the protein strategy returns exactly the sequence
mass and primary accession of the first result, but its success also
requires the proteinDescription → recommendedName → fullName → value
chain of the first result to be present (the value itself is read into
an unused variable and does not affect the returned pair). -/
theorem protein_consumed_fields (net : String → HttpResult) (name : String)
    (data results entry pd rn fn vmass seq mwv acc : Json)
    (hnet : httpJson (net (uniprotUrl name)) = some data)
    (hres : data.get? "results" = some results)
    (hent : results.idx? 0 = some entry)
    (hpd : entry.get? "proteinDescription" = some pd)
    (hrn : pd.get? "recommendedName" = some rn)
    (hfn : rn.get? "fullName" = some fn)
    (hval : fn.get? "value" = some vmass)
    (hseq : entry.get? "sequence" = some seq)
    (hmass : seq.get? "mass" = some mwv)
    (hacc : entry.get? "primaryAccession" = some acc) :
    fetch_uniprot_mw net name = (some mwv, some acc) := by
  simp [fetch_uniprot_mw, fetchUniprotMwAux, hnet, hres, hent, hpd, hrn, hfn, hval,
    hseq, hmass, hacc]

/-- A transport whose UniProt response populates every field the source
dereferences. -/
def c6FullNet : String → HttpResult := fun _ =>
  HttpResult.response 200 (some (Json.obj [("results", Json.arr [Json.obj
    [("proteinDescription", Json.obj [("recommendedName", Json.obj
       [("fullName", Json.obj [("value", Json.str "Insulin")])])]),
     ("sequence", Json.obj [("mass", Json.num 5808)]),
     ("primaryAccession", Json.str "P01308")]])]))

/-- Witness for the amended C6 on a fully populated response. -/
theorem protein_consumed_fields_witness :
    fetch_uniprot_mw c6FullNet "insulin" = (some (Json.num 5808), some (Json.str "P01308")) :=
  protein_consumed_fields c6FullNet "insulin" _ _ _ _ _ _ _ _ _ _
    rfl rfl rfl rfl rfl rfl rfl rfl rfl rfl

/-- A transport whose UniProt response is fully populated but reports a
sequence mass of 0. -/
def c9ZeroMassNet : String → HttpResult := fun _ =>
  HttpResult.response 200 (some (Json.obj [("results", Json.arr [Json.obj
    [("proteinDescription", Json.obj [("recommendedName", Json.obj
       [("fullName", Json.obj [("value", Json.str "Degenerate")])])]),
     ("sequence", Json.obj [("mass", Json.num 0)]),
     ("primaryAccession", Json.str "P00000")]])]))

/-- Counterexample to C9: a lookup whose resolver outcome is successful
(not the (None, None) pair — it returns mass 0 and an accession) still
leaves the stored molecular weight unchanged, because the handler guard
is Python truthiness and 0 is falsy (src line 80). -/
theorem lookup_zero_mass_counterexample :
    fetch_uniprot_mw c9ZeroMassNet "x" = (some (Json.num 0), some (Json.str "P00000")) ∧
    lookupHandler c9ZeroMassNet true "x" (Json.num 58.44) = Json.num 58.44 ∧
    Json.num (58.44:ℚ) ≠ Json.num 0 := by
  refine ⟨rfl, ?_, ?_⟩
  · have ht : truthy (Json.num 0) = false := by simp [truthy]
    simp [lookupHandler,
      show fetch_uniprot_mw c9ZeroMassNet "x" = (some (Json.num 0), some (Json.str "P00000"))
        from rfl, ht]
  · rw [Ne, Json.num.injEq]
    norm_num

/-- C9 (amended): a lookup whose resolver outcome is the not-found pair
leaves the stored molecular weight unchanged; a successful lookup
overwrites it with the newly resolved weight (the raw Dalton value for
proteins) when that weight is truthy and the kilo-Dalton display
division at src line 81 succeeds (a numeric or boolean weight); a
successful lookup with a falsy weight (such as 0) leaves the state
unchanged, and a successful lookup with a truthy non-numeric weight
raises an uncaught TypeError at that division before the assignment, so
it also leaves the state unchanged. -/
theorem lookup_state_update (net : String → HttpResult) (name : String) (cur : Json) :
    ((fetch_uniprot_mw net name).1 = none → lookupHandler net true name cur = cur) ∧
    (∀ m k, (fetch_uniprot_mw net name).1 = some m → truthy m = true →
      mw_kDa? m = some k → lookupHandler net true name cur = m) ∧
    (∀ m, (fetch_uniprot_mw net name).1 = some m → truthy m = false →
      lookupHandler net true name cur = cur) ∧
    (∀ m, (fetch_uniprot_mw net name).1 = some m → truthy m = true →
      mw_kDa? m = none → lookupHandler net true name cur = cur) ∧
    ((fetch_molecular_weight net name).1 = none → lookupHandler net false name cur = cur) ∧
    (∀ q, (fetch_molecular_weight net name).1 = some q → q ≠ 0 →
      lookupHandler net false name cur = Json.num q) ∧
    (∀ q, (fetch_molecular_weight net name).1 = some q → q = 0 →
      lookupHandler net false name cur = cur) := by
  rcases hp : fetch_uniprot_mw net name with ⟨a, b⟩
  rcases hc : fetch_molecular_weight net name with ⟨c, d⟩
  refine ⟨?_, ?_, ?_, ?_, ?_, ?_, ?_⟩
  · intro h
    simp only at h
    subst h
    simp [lookupHandler, hp]
  · intro m k hm ht hk
    simp only at hm
    subst hm
    simp [lookupHandler, hp, ht, hk]
  · intro m hm ht
    simp only at hm
    subst hm
    simp [lookupHandler, hp, ht]
  · intro m hm ht hk
    simp only at hm
    subst hm
    simp [lookupHandler, hp, ht, hk]
  · intro h
    simp only at h
    subst h
    simp [lookupHandler, hc]
  · intro q hq hne
    simp only at hq
    subst hq
    simp [lookupHandler, hc, hne]
  · intro q hq he
    simp only at hq
    subst hq
    simp [lookupHandler, hc, he]

/-- A transport whose UniProt response is fully populated with a
nonzero mass. -/
def c9SuccessNet : String → HttpResult := fun _ =>
  HttpResult.response 200 (some (Json.obj [("results", Json.arr [Json.obj
    [("proteinDescription", Json.obj [("recommendedName", Json.obj
       [("fullName", Json.obj [("value", Json.str "Insulin-2")])])]),
     ("sequence", Json.obj [("mass", Json.num 5808)]),
     ("primaryAccession", Json.str "P01310")]])]))

/-- A transport answering every URL with a body holding both PubChem
shapes, so the two-step compound exchange succeeds. -/
def c9CompoundNet : String → HttpResult := fun _ =>
  HttpResult.response 200 (some (Json.obj
    [("IdentifierList", Json.obj [("CID", Json.arr [Json.num 2244])]),
     ("PropertyTable", Json.obj [("Properties", Json.arr
       [Json.obj [("MolecularWeight", Json.num 180.16)]])])]))

/-- A transport whose UniProt response is fully populated but reports a
non-numeric (string) sequence mass, which is truthy yet not divisible
by 1000. -/
def c9StrMassNet : String → HttpResult := fun _ =>
  HttpResult.response 200 (some (Json.obj [("results", Json.arr [Json.obj
    [("proteinDescription", Json.obj [("recommendedName", Json.obj
       [("fullName", Json.obj [("value", Json.str "Odd")])])]),
     ("sequence", Json.obj [("mass", Json.str "heavy")]),
     ("primaryAccession", Json.str "P99999")]])]))

/-- Witness for the amended C9: a truthy numeric protein success
overwrites; a zero-mass success, a truthy string-mass success (uncaught
TypeError at the kDa division) and a failed lookup leave the state
unchanged; a compound success stores the fetched float. -/
theorem lookup_state_update_witness :
    lookupHandler c9SuccessNet true "x" (Json.num 58.44) = Json.num 5808 ∧
    lookupHandler c9ZeroMassNet true "x" (Json.num 58.44) = Json.num 58.44 ∧
    lookupHandler c9StrMassNet true "x" (Json.num 58.44) = Json.num 58.44 ∧
    lookupHandler (fun _ => HttpResult.transportError) true "x" (Json.num 58.44) =
      Json.num 58.44 ∧
    lookupHandler c9CompoundNet false "x" (Json.num 58.44) = Json.num 180.16 :=
  ⟨(lookup_state_update c9SuccessNet "x" (Json.num 58.44)).2.1 (Json.num 5808)
      (5808 / 1000) rfl (by norm_num [truthy]) rfl,
    (lookup_state_update c9ZeroMassNet "x" (Json.num 58.44)).2.2.1 (Json.num 0) rfl
      (by norm_num [truthy]),
    (lookup_state_update c9StrMassNet "x" (Json.num 58.44)).2.2.2.1 (Json.str "heavy") rfl
      (by simp [truthy]) rfl,
    (lookup_state_update (fun _ => HttpResult.transportError) "x" (Json.num 58.44)).1 rfl,
    (lookup_state_update c9CompoundNet "x" (Json.num 58.44)).2.2.2.2.2.1 180.16 rfl
      (by norm_num)⟩

end ChemCalc
